import Mathlib

/-!
Shallow embedding of the pyflaker repository (a Python snowflake-ID library)
and proofs about its generator variants.

The repository contains several independent implementations of the same
snowflake algorithm:
* `src/main.py` — a closure-based generator function `generator(epoch, pid, seed)`
  plus a `Snowflake` client class;
* `src/pyflaker.py` — a lock-guarded `SnowflakeGenerator` class with a
  `close()` method;
* `src/pyflaker/generator.py` + `src/pyflaker/snowflake.py` — a salt-based
  generator producing `Snowflake` value objects;
* `src/src/main.py` + `src/src/utilities.py` + `src/src/constants.py` — a
  metaclass-configured generator;
* `src/src/__init__.py` — an async variant plus the `snowflake_to_datetime`
  decoder.

Each Python variant is embedded as explicit state passing over `Nat`/`Int`
(Python integers are unbounded, so no wraparound is modelled except where the
code masks explicitly).  Clock reads (`time.time()`, `datetime.now()`, ...)
are modelled by a list of millisecond readings consumed by the retry loop;
an exhausted list means the loop was still waiting (sleeping) when the
supplied readings ran out.
-/

namespace PyflakerRepo

/-! ### src/main.py — the closure-based generator

`generator(epoch, pid, seed)` captures bit-layout constants and mutable
state `(last_timestamp, sequence)` in a closure, loops reading
`math.floor(time.time() * 1000)`, and yields packed IDs. -/

namespace MainPy

/-- Constant from src/main.py: `pid_bits = 5`. -/
def pid_bits : Nat := 5

/-- Constant from src/main.py: `seed_bits = 5`. -/
def seed_bits : Nat := 5

/-- Constant from src/main.py: `sequence_bits = 12`. -/
def sequence_bits : Nat := 12

/-- Constant from src/main.py: `max_pid = -1 ^ (-1 << pid_bits)` = 31. -/
def max_pid : Nat := 31

/-- Constant from src/main.py: `max_seed = -1 ^ (-1 << seed_bits)` = 31. -/
def max_seed : Nat := 31

/-- Constant from src/main.py: `sequence_mask = -1 ^ (-1 << sequence_bits)` = 4095. -/
def sequence_mask : Nat := 4095

/-- Constant from src/main.py: `pid_shift = sequence_bits` = 12. -/
def pid_shift : Nat := sequence_bits

/-- Constant from src/main.py: `seed_shift = sequence_bits + pid_bits` = 17. -/
def seed_shift : Nat := sequence_bits + pid_bits

/-- Constant from src/main.py: `timestamp_shift = sequence_bits + pid_bits + seed_bits` = 22. -/
def timestamp_shift : Nat := sequence_bits + pid_bits + seed_bits

/-- The yield expression of src/main.py lines 81-92:
`((timestamp-epoch) << timestamp_shift) | (seed << seed_shift) | (pid << pid_shift) | sequence`.
Stated over `Nat`; callers supply `epoch ≤ timestamp` (Python subtraction on
ints agrees with `Nat` truncated subtraction in that case). -/
def encodeMain (epoch timestamp seed pid sequence : Nat) : Nat :=
  ((timestamp - epoch) <<< timestamp_shift) |||
    (seed <<< seed_shift) ||| (pid <<< pid_shift) ||| sequence

/-- The mutable closure state of src/main.py's `generator`:
`last_timestamp` starts at `-1` (hence `Int`), `sequence` at `0`. -/
structure GenState where
  last_timestamp : Int
  sequence : Nat
deriving DecidableEq

/-- The `while True` loop of src/main.py lines 51-92.  Each list element is one
reading of `math.floor(time.time() * 1000)`; `sleep`/`continue` branches
consume a reading and recurse; the yield returns the packed ID together with
the committed state.  `none` means the loop was still waiting when the
supplied clock readings ran out. -/
def genLoop (epoch pid seed : Nat) (st : GenState) : List Nat → Option (Nat × GenState)
  | [] => none
  | timestamp :: rest =>
    if st.last_timestamp > (timestamp : Int) then
      -- time is moving backwards: sleep(last_timestamp - timestamp); continue
      genLoop epoch pid seed st rest
    else if st.last_timestamp = (timestamp : Int) then
      -- sequence = (sequence + 1) & sequence_mask
      let sequence := (st.sequence + 1) &&& sequence_mask
      if sequence = 0 then
        -- sequence = -1 & sequence_mask (= 4095); sleep(1); continue
        genLoop epoch pid seed ⟨st.last_timestamp, 4095⟩ rest
      else
        some (encodeMain epoch timestamp seed pid sequence, ⟨(timestamp : Int), sequence⟩)
    else
      -- last_timestamp < timestamp: sequence = 0, commit and yield
      some (encodeMain epoch timestamp seed pid 0, ⟨(timestamp : Int), 0⟩)

/-- The committed `(last_timestamp, sequence)` pair strictly increases
lexicographically across yields of one generator. -/
def lexLt (s t : GenState) : Prop :=
  s.last_timestamp < t.last_timestamp ∨
    (s.last_timestamp = t.last_timestamp ∧ s.sequence < t.sequence)


/-- The assert statements of src/main.py lines 36-37:
`assert pid >= 0 and pid <= max_pid` and `assert seed >= 0 and seed <= max_seed`.
They sit inside the body of the generator function, and Python executes a
generator function's body only when the generator is first advanced — so
these asserts run at the first `next()`/`generate()` call, not when
`generator(...)` is called. -/
def bodyAsserts (pid seed : Int) : Prop :=
  (0 ≤ pid ∧ pid ≤ (max_pid : Int)) ∧ (0 ≤ seed ∧ seed ≤ (max_seed : Int))

instance (pid seed : Int) : Decidable (bodyAsserts pid seed) := by
  unfold bodyAsserts
  infer_instance

/-- A generator object as returned by calling `generator(epoch, pid, seed)`
(src/main.py line 12): the call executes none of the body, it merely packages
the arguments with the not-yet-started frame.  `Snowflake.__init__`
(src/main.py line 106) does exactly this call, so client construction also
always succeeds, whatever `pid` and `seed` are. -/
structure GeneratorObj where
  epoch : Nat
  pid : Int
  seed : Int
deriving DecidableEq

/-- Calling `generator(epoch, pid, seed)` (src/main.py lines 12-43): no code
of the body runs; construction returns the generator object unconditionally. -/
def generatorCall (epoch : Nat) (pid seed : Int) : GeneratorObj :=
  ⟨epoch, pid, seed⟩

/-- The first `next()` on the generator (the client's first `generate()`,
src/main.py lines 143-144) starts executing the body: the asserts of lines
36-37 run first, raising AssertionError when `pid` or `seed` is out of
range, and only then does the `while True` loop run and yield an ID. -/
def firstAdvance (g : GeneratorObj) (clock : List Nat) :
    Except String (Option (Nat × GenState)) :=
  if bodyAsserts g.pid g.seed then
    .ok (genLoop g.epoch g.pid.toNat g.seed.toNat ⟨-1, 0⟩ clock)
  else
    .error "AssertionError"

/-- Python values flowing through `Snowflake.to_timestamp` (src/main.py
lines 130-139): either an int or the `Snowflake` client instance itself.
The method is declared `def to_timestamp(_id, fmt)` with no `self`
parameter, so a bound call `client.to_timestamp(x)` passes the client
object as `_id`. -/
inductive PyVal where
  | int (n : Int)
  | snowflakeObj
deriving DecidableEq

/-- Body of `to_timestamp` (src/main.py lines 130-139): the first statement
`_id >> 22` requires an int — a `Snowflake` instance defines no `__rshift__`,
so the shift raises TypeError — and the next line `_id += self.epoch` reads
the name `self`, which is bound nowhere in this function, raising NameError. -/
def to_timestamp_body (idArg : PyVal) (_fmt : PyVal) : Except String Int :=
  match idArg with
  | .snowflakeObj => .error "TypeError: unsupported operand for Snowflake >> int"
  | .int _ => .error "NameError: name self is not defined"

/-- A bound method call `client.to_timestamp(x)` passes the instance as the
first positional argument. -/
def to_timestamp_boundCall (x : Int) : Except String Int :=
  to_timestamp_body .snowflakeObj (.int x)

/-- Attribute state of a `Snowflake` client (src/main.py lines 98-123):
`some g` when the instance attribute `generator` is present, `none` after it
was deleted.  Generator objects are always truthy in Python, so
`if getattr(self, 'generator')` is true whenever the attribute exists, and
`getattr` without a default raises AttributeError when it does not. -/
def getattr_generator {α : Type} (st : Option α) : Except String α :=
  match st with
  | none => .error "AttributeError: Snowflake object has no attribute generator"
  | some g => .ok g

/-- `Snowflake.destroy` (src/main.py lines 109-111): evaluates
`getattr(self, 'generator')` (raising AttributeError when absent) and, the
result being truthy, deletes the attribute. -/
def destroy {α : Type} (st : Option α) : Except String (Option α) :=
  (getattr_generator st).map (fun _ => none)

/-- `Snowflake.create` (src/main.py lines 114-116): evaluates
`getattr(self, 'generator')` (raising AttributeError when absent); a present
generator is truthy, so the guarded `setattr` never runs. -/
def create {α : Type} (_fresh : α) (st : Option α) : Except String (Option α) :=
  (getattr_generator st).map (fun g => some g)

/-- `Snowflake.renew` (src/main.py lines 121-123): `self.destroy()` then
`self.create(pid, seed)`. -/
def renew {α : Type} (fresh : α) (st : Option α) : Except String (Option α) :=
  (destroy st).bind (create fresh)

end MainPy

/-! ### src/pyflaker.py — the lock-guarded SnowflakeGenerator with close() -/

namespace PyflakerPy

/-- Constant from src/pyflaker.py line 33: `process_id_bits = 2**5`.  Despite
the name, these are exclusive upper bounds on field values, not bit counts. -/
def process_id_bits : Nat := 2 ^ 5

/-- Constant from src/pyflaker.py line 34: `thread_id_bits = 2**5`. -/
def thread_id_bits : Nat := 2 ^ 5

/-- Constant from src/pyflaker.py line 35: `sequence_bits = 2**12`. -/
def sequence_bits : Nat := 2 ^ 12

/-- Constant from src/pyflaker.py line 36: `snowflake_bits = 2**64`. -/
def snowflake_bits : Nat := 2 ^ 64

/-- The validation chain of `SnowflakeGenerator.__init__`
(src/pyflaker.py lines 49-95), in source order.  Arguments are Python ints
(`Int` here); the `isinstance` checks on `epoch` and `last` are type-level
and not modelled.  Note that only upper bounds are checked on `process_id`
and `thread_id`. -/
def init_check (process_id thread_id step sequence : Int) : Except String Unit :=
  if process_id ≥ (process_id_bits : Int) then
    .error "Invalid process id value (process_id value greater than 31)"
  else if thread_id ≥ (thread_id_bits : Int) then
    .error "Invalid thread id value (thread_id value greater than 31)"
  else if step < 1 then
    .error "Invalid step value (step value less than 1)"
  else if step ≥ (sequence_bits : Int) then
    .error "Invalid step value (step value greater than 4,095)"
  else if sequence ≥ (sequence_bits : Int) then
    .error "Invalid sequence (sequence value greater than 4,095)"
  else
    .ok ()

/-- Mutable state of one generator instance: the closed event, `self._last`
(as milliseconds since the Unix epoch) and `self._sequence`. -/
structure GenState where
  closed : Bool
  last : Nat
  sequence : Nat
deriving DecidableEq

/-- The packed expression of src/pyflaker.py lines 193-198 for a nonnegative
time delta, exactly as written in the source:
`delta << 22 | process_id << 17 | thread_id << 12 | sequence`.
Note `process_id` sits at bits 17-21 and `thread_id` at bits 12-16. -/
def encode (delta process_id thread_id sequence : Nat) : Nat :=
  (delta <<< 22) ||| (process_id <<< 17) ||| (thread_id <<< 12) ||| sequence

/-- The low 22 bits of the packed expression of lines 193-198. -/
def low_fields (process_id thread_id sequence : Nat) : Nat :=
  (process_id <<< 17) ||| (thread_id <<< 12) ||| sequence

/-- The full `res` expression of src/pyflaker.py lines 193-198 with a
possibly negative delta.  Python evaluates
`(now_ms - epoch_ms) << 22 | low` on unbounded two's-complement ints; the
low 22 bits of the shifted delta are zero and `low < 2^22` (the constructor
bounds `process_id, thread_id < 32` and `sequence < 4096`), so the bitwise
or is exactly addition, which is how we embed it over `Int`. -/
def res_expr (epoch_ms : Int) (now_ms process_id thread_id sequence : Nat) : Int :=
  ((now_ms : Int) - epoch_ms) * 2 ^ 22 + (low_fields process_id thread_id sequence : Int)

/-- Result of one `generate()` call. -/
inductive Outcome where
  | ok (id : Int) (st : GenState)
  | closedErr
  | overflowErr (res : Int)
  | spin
deriving DecidableEq

/-- Tail of `generate` after the loop breaks (src/pyflaker.py lines 193-205):
compute `res`, raise ValueError when `res >= snowflake_bits`, else return it.
The committed state has `last = now` and the committed sequence. -/
def finish (epoch_ms : Int) (process_id thread_id now sequence : Nat) : Outcome :=
  let res := res_expr epoch_ms now process_id thread_id sequence
  if res ≥ (snowflake_bits : Int) then .overflowErr res
  else .ok res ⟨false, now, sequence⟩

/-- The `while True` loop of `generate` (src/pyflaker.py lines 171-191).
Each list element is one `datetime.now()` reading in milliseconds;
sleep-and-continue branches consume a reading and recurse; `.spin` means the
loop was still waiting when the readings ran out. -/
def genLoop (epoch_ms : Int) (process_id thread_id step : Nat) (st : GenState) :
    List Nat → Outcome
  | [] => .spin
  | now :: rest =>
    if st.last > now then
      -- sleep((self.last - now).total_seconds()); continue
      genLoop epoch_ms process_id thread_id step st rest
    else if st.last = now then
      -- sequence = (self.sequence + self.step) & (sequence_bits - 1)
      let sequence := (st.sequence + step) &&& (sequence_bits - 1)
      if sequence = 0 then
        -- sleep(self.step / 1000); continue  (instance state unchanged)
        genLoop epoch_ms process_id thread_id step st rest
      else
        finish epoch_ms process_id thread_id now sequence
    else
      finish epoch_ms process_id thread_id now 0

/-- `generate` (src/pyflaker.py lines 162-205): raises RuntimeError when the
generator is closed, before acquiring the lock or reading the clock. -/
def generate (epoch_ms : Int) (process_id thread_id step : Nat) (st : GenState)
    (clock : List Nat) : Outcome :=
  if st.closed then .closedErr
  else genLoop epoch_ms process_id thread_id step st clock

/-- `close` (src/pyflaker.py lines 207-208): sets the closed event. -/
def close (st : GenState) : GenState := { st with closed := true }

/-- The `closed` property (src/pyflaker.py lines 210-212). -/
def isClosed (st : GenState) : Bool := st.closed

end PyflakerPy

/-! ### src/pyflaker/generator.py + src/pyflaker/snowflake.py — the
salt-based package variant -/

namespace PyflakerPkg

/-- The sequence mask of src/pyflaker/generator.py line 63, exactly as
written: `(1 << 2**10) - 1`.  Since `2**10 = 1024` this is `2^1024 - 1`,
not the 10-bit mask `(1 << 10) - 1` that the adjacent comment describes. -/
def seq_mask : Nat := (1 <<< 2 ^ 10) - 1

/-- `Snowflake.__int__` (src/pyflaker/snowflake.py lines 42-47):
`(int(time.total_seconds() * 1000) << 22) | (salt << 12) | sequence`,
where `time_field` is the value of `int(self.time.total_seconds() * 1000)`. -/
def snowflakeInt (time_field salt sequence : Nat) : Nat :=
  (time_field <<< 22) ||| (salt <<< 12) ||| sequence

/-- The `time` argument built by src/pyflaker/generator.py line 82:
`timedelta(milliseconds = (self.last_time - self.epoch).total_seconds())`.
With `delta_ms` the elapsed milliseconds, `total_seconds()` is
`delta_ms / 1000`, so the stored timedelta measures `delta_ms / 1000`
milliseconds, and `int(time.total_seconds() * 1000)` inside `__int__`
evaluates to `⌊delta_ms / 1000⌋`: the packed time field counts seconds,
not milliseconds. -/
def time_field (delta_ms : Nat) : Nat := delta_ms / 1000

/-- Mutable state of src/pyflaker/generator.py: `self.last_time` (as
milliseconds since the Unix epoch; initialized to the epoch itself in
`__init__`) and `self.sequence`. -/
structure GenState where
  last_time : Nat
  sequence : Nat
deriving DecidableEq

/-- The `generate` loop of src/pyflaker/generator.py lines 50-87.  Each list
element is one `datetime.utcnow()` reading in milliseconds.  Returns the
integer value of the produced `Snowflake` and the committed state; `none`
when the loop was still sleeping as the readings ran out.  Note the source
masks the incremented sequence with `seq_mask` (so it never wraps at 4096)
and tests the pre-increment `self.sequence` — not the incremented copy —
against 0 before sleeping. -/
def generate (epoch_ms salt : Nat) (st : GenState) : List Nat → Option (Nat × GenState)
  | [] => none
  | now :: rest =>
    if now < st.last_time then
      -- wait until time catches up
      generate epoch_ms salt st rest
    else if now = st.last_time then
      let sequence := (st.sequence + 1) &&& seq_mask
      if st.sequence = 0 then
        -- sleep(1/1000); continue  (instance state unchanged)
        generate epoch_ms salt st rest
      else
        some (snowflakeInt (time_field (now - epoch_ms)) salt sequence, ⟨now, sequence⟩)
    else
      some (snowflakeInt (time_field (now - epoch_ms)) salt 0, ⟨now, 0⟩)

end PyflakerPkg

/-! ### src/src/main.py + src/src/utilities.py — the metaclass-configured
variant and its clock helpers -/

namespace SrcSrc

/-- `now(tz)` from src/src/utilities.py lines 15-16 has one required
positional parameter `tz` (typed `Optional[timezone]` but given no default
value).  We embed the call-arity check of Python: `callNow` receives the
list of supplied arguments and the ambient clock reading, and raises
TypeError when fewer than one argument is supplied. -/
def callNow (args : List (Option Int)) (clock_ms : Int) : Except String Int :=
  if args.length < 1 then
    .error "TypeError: now() missing 1 required positional argument: tz"
  else
    .ok clock_ms

/-- `timestamp(dt=None)` from src/src/utilities.py lines 18-22: when `dt` is
None it evaluates `dt = now()` — a zero-argument call — and then returns
`int(dt.timestamp() * 1000)` (the reading in milliseconds). -/
def timestamp (dt : Option Int) (clock_ms : Int) : Except String Int :=
  match dt with
  | none => callNow [] clock_ms
  | some d => .ok d

/-- The state stored by `SnowflakeGenerator.__init__`
(src/src/main.py lines 80-100): the two ids are stored with no range
validation, `_last_timestamp` starts at `-1` and `_sequence` at 0. -/
structure InitState where
  process_id : Int
  worker_id : Int
  last_timestamp : Int
  sequence : Nat
deriving DecidableEq

/-- `__init__` of src/src/main.py lines 80-100: stores its arguments
unchecked. -/
def init (process_id worker_id : Int) : InitState :=
  ⟨process_id, worker_id, -1, 0⟩

/-- The return expression of `SnowflakeGenerator.generate`
(src/src/main.py lines 139-144) for a nonnegative delta:
`(now - epoch) << 22 | worker_id << 17 | process_id << 12 | sequence`.
Note `worker_id` sits at bits 17-21 and `process_id` at bits 12-16. -/
def encode (delta worker_id process_id sequence : Nat) : Nat :=
  (delta <<< 22) ||| (worker_id <<< 17) ||| (process_id <<< 12) ||| sequence

/-- Loop state of `generate` (src/src/main.py lines 102-144). -/
structure GenState where
  last_timestamp : Int
  sequence : Nat
deriving DecidableEq

/-- The `while True` loop of `SnowflakeGenerator.generate`
(src/src/main.py lines 118-144).  The first statement of every iteration is
`now = timestamp()`, a call with `dt` defaulted to None, which evaluates
`now()` with zero arguments; any error it raises propagates out of
`generate`.  The rest of the body (clock comparison, sequence update, the
packed return value) is embedded for completeness even though it is
unreachable.  `none` means the supplied clock readings ran out. -/
def genLoop (epoch worker_id process_id : Nat) (st : GenState) :
    List Int → Option (Except String (Nat × GenState))
  | [] => none
  | reading :: rest =>
    match timestamp none reading with
    | .error e => some (.error e)
    | .ok now =>
      if now < st.last_timestamp then
        genLoop epoch worker_id process_id st rest
      else if now = st.last_timestamp then
        -- self._sequence = (self._sequence + 1) & 0xFFF  (stored before the check)
        let sequence := (st.sequence + 1) &&& 0xFFF
        if sequence = 0 then
          genLoop epoch worker_id process_id ⟨st.last_timestamp, 0⟩ rest
        else
          some (.ok (encode (now - (epoch : Int)).toNat worker_id process_id sequence,
            ⟨now, sequence⟩))
      else
        some (.ok (encode (now - (epoch : Int)).toNat worker_id process_id 0, ⟨now, 0⟩))

end SrcSrc

/-! ### src/src/__init__.py — the decoder -/

namespace SrcPkg

/-- `snowflake_to_datetime` (src/src/__init__.py lines 29-52) computes
`datetime.fromtimestamp(((snowflake >> 22) + int(epoch.timestamp() * 1000)) / 1000)`.
We model the absolute millisecond value handed to `fromtimestamp`
(i.e. its argument times 1000): `(snowflake >> 22) + epoch_ms`. -/
def snowflake_to_datetime_ms (snowflake : Nat) (epoch_ms : Nat) : Nat :=
  (snowflake >>> 22) + epoch_ms

end SrcPkg

/-- Modelled from the spec: claim C2's canonical bit layout, in the spec's
words — the encoded ID equals
`(delta_ms << 22) | (worker_id << 17) | (process_id << 12) | sequence`,
with the worker (a.k.a. seed/thread) field at bits 17-21 and the process
field at bits 12-16.  Used only to compare the spec's layout against the
layouts found in the source. -/
def specLayout (delta_ms worker_id process_id sequence : Nat) : Nat :=
  (delta_ms <<< 22) ||| (worker_id <<< 17) ||| (process_id <<< 12) ||| sequence

/-! ### Bit-level helper lemmas

Python composes snowflakes with `<<` and `|` on disjoint bit ranges.  The
following lemmas rewrite such a disjoint `or` as an addition and a mask as a
remainder. -/

/-- Disjointness helper: if `b` fits in the low `n` bits, then or-ing it with
a value whose low `n` bits are zero is addition. -/
lemma two_pow_mul_lor_eq_add (a : Nat) :
    ∀ (n : Nat) (b : Nat), b < 2 ^ n → (a * 2 ^ n) ||| b = a * 2 ^ n + b := by
  intro n
  induction n with
  | zero =>
    intro b hb
    interval_cases b
    simp
  | succ n ih =>
    intro b hb
    have hb2 : b / 2 < 2 ^ n := by
      have : b < 2 ^ n * 2 := by
        rw [pow_succ] at hb
        exact hb
      omega
    have h1 : a * 2 ^ (n + 1) = Nat.bit false (a * 2 ^ n) := by
      simp [Nat.bit, pow_succ]
      ring
    have h2 : b = Nat.bit (Nat.bodd b) (Nat.div2 b) := (Nat.bit_decomp b).symm
    rw [h1, h2, Nat.lor_bit]
    rw [ih (Nat.div2 b) (by rwa [Nat.div2_val])]
    simp [Nat.bit_val, Nat.div2_val, pow_succ]
    have hmod := Nat.mod_two_of_bodd b
    have hdm := Nat.div_add_mod b 2
    cases hB : Nat.bodd b <;> simp [hB] at hmod ⊢ <;> omega

/-- Shifted form of `two_pow_mul_lor_eq_add`. -/
lemma shiftLeft_lor_eq_add (a n b : Nat) (hb : b < 2 ^ n) :
    (a <<< n) ||| b = a * 2 ^ n + b := by
  rw [Nat.shiftLeft_eq]
  exact two_pow_mul_lor_eq_add a n b hb

/-- Masking with `4095 = 2^12 - 1` is reduction modulo `4096`. -/
lemma land_4095_eq_mod (x : Nat) : x &&& 4095 = x % 4096 := by
  have := Nat.and_pow_two_sub_one_eq_mod x 12
  simpa using this

namespace MainPy

/-- Loop invariant of src/main.py's generator: a successful yield returns the
encoding of the committed state, the committed timestamp is one of the clock
readings, the sequence stays within 12 bits, and the committed state is
lexicographically above the entry state. -/
lemma genLoop_spec (epoch pid seed : Nat) :
    ∀ (clock : List Nat) (st : GenState) (id : Nat) (st' : GenState),
      st.sequence ≤ 4095 →
      (∀ t ∈ clock, epoch ≤ t) →
      genLoop epoch pid seed st clock = some (id, st') →
      (∃ t, t ∈ clock ∧ st'.last_timestamp = (t : Int) ∧ epoch ≤ t ∧
        id = encodeMain epoch t seed pid st'.sequence) ∧
      st'.sequence ≤ 4095 ∧ lexLt st st' := by
  intro clock
  induction clock with
  | nil =>
    intro st id st' _ _ h
    simp [genLoop] at h
  | cons t rest ih =>
    intro st id st' hseq hclock h
    have ht : epoch ≤ t := hclock t (List.mem_cons_self t rest)
    have hrest : ∀ u ∈ rest, epoch ≤ u := fun u hu => hclock u (List.mem_cons_of_mem t hu)
    rw [genLoop] at h
    by_cases hgt : st.last_timestamp > (t : Int)
    · rw [if_pos hgt] at h
      obtain ⟨⟨u, hu, h1, h2, h3⟩, h4, h5⟩ := ih st id st' hseq hrest h
      exact ⟨⟨u, List.mem_cons_of_mem t hu, h1, h2, h3⟩, h4, h5⟩
    · rw [if_neg hgt] at h
      by_cases heq : st.last_timestamp = (t : Int)
      · rw [if_pos heq] at h
        simp only at h
        by_cases hwrap : (st.sequence + 1) &&& sequence_mask = 0
        · rw [if_pos hwrap] at h
          have hmod : (st.sequence + 1) % 4096 = 0 := by
            have := land_4095_eq_mod (st.sequence + 1)
            rw [sequence_mask] at hwrap
            omega
          have hst4095 : st.sequence = 4095 := by omega
          have hsame : (⟨st.last_timestamp, 4095⟩ : GenState) = st := by
            cases st with
            | mk l s =>
              simp at hst4095 ⊢
              omega
          rw [hsame] at h
          obtain ⟨⟨u, hu, h1, h2, h3⟩, h4, h5⟩ := ih st id st' hseq hrest h
          exact ⟨⟨u, List.mem_cons_of_mem t hu, h1, h2, h3⟩, h4, h5⟩
        · rw [if_neg hwrap] at h
          have hmod : (st.sequence + 1) &&& sequence_mask = (st.sequence + 1) % 4096 := by
            rw [sequence_mask]
            exact land_4095_eq_mod (st.sequence + 1)
          injection h with h'
          injection h' with hid hst'
          refine ⟨⟨t, List.mem_cons_self t rest, ?_, ht, ?_⟩, ?_, ?_⟩
          · rw [← hst']
          · rw [← hst', hid]
          · rw [← hst']
            simp only
            omega
          · right
            rw [← hst']
            refine ⟨heq.symm ▸ rfl, ?_⟩
            simp only
            omega
      · rw [if_neg heq] at h
        injection h with h'
        injection h' with hid hst'
        have hlt : st.last_timestamp < (t : Int) := by
          omega
        refine ⟨⟨t, List.mem_cons_self t rest, ?_, ht, ?_⟩, ?_, ?_⟩
        · rw [← hst']
        · rw [← hst', hid]
        · rw [← hst']
          simp only
          omega
        · left
          rw [← hst']
          exact hlt

/-- Sum form of `encodeMain` for in-range fields. -/
lemma encodeMain_eq_add (epoch t seed pid s : Nat)
    (_ht : epoch ≤ t) (hseed : seed ≤ 31) (hpid : pid ≤ 31) (hs : s ≤ 4095) :
    encodeMain epoch t seed pid s =
      (t - epoch) * 2 ^ 22 + (seed * 2 ^ 17 + (pid * 2 ^ 12 + s)) := by
  have hinner : (pid <<< pid_shift) ||| s = pid * 2 ^ 12 + s := by
    rw [pid_shift, sequence_bits]
    exact shiftLeft_lor_eq_add pid 12 s (by omega)
  have hmid : (seed <<< seed_shift) ||| (pid * 2 ^ 12 + s) = seed * 2 ^ 17 + (pid * 2 ^ 12 + s) := by
    rw [seed_shift, sequence_bits, pid_bits]
    exact shiftLeft_lor_eq_add seed 17 _ (by norm_num; omega)
  have houter : ((t - epoch) <<< timestamp_shift) ||| (seed * 2 ^ 17 + (pid * 2 ^ 12 + s)) =
      (t - epoch) * 2 ^ 22 + (seed * 2 ^ 17 + (pid * 2 ^ 12 + s)) := by
    rw [timestamp_shift, sequence_bits, pid_bits, seed_bits]
    exact shiftLeft_lor_eq_add (t - epoch) 22 _ (by norm_num; omega)
  rw [encodeMain, Nat.lor_assoc, Nat.lor_assoc, hinner, hmid, houter]

/-- Lexicographic increase of the committed state strictly increases the
packed ID. -/
lemma encodeMain_strictMono (epoch t1 t2 seed pid s1 s2 : Nat)
    (ht1 : epoch ≤ t1) (ht2 : epoch ≤ t2)
    (hseed : seed ≤ 31) (hpid : pid ≤ 31) (hs1 : s1 ≤ 4095) (hs2 : s2 ≤ 4095)
    (hlex : t1 < t2 ∨ (t1 = t2 ∧ s1 < s2)) :
    encodeMain epoch t1 seed pid s1 < encodeMain epoch t2 seed pid s2 := by
  rw [encodeMain_eq_add epoch t1 seed pid s1 ht1 hseed hpid hs1,
    encodeMain_eq_add epoch t2 seed pid s2 ht2 hseed hpid hs2]
  rcases hlex with hlt | ⟨heq, hs⟩
  · have : t1 - epoch + 1 ≤ t2 - epoch := by omega
    nlinarith [this]
  · rw [heq]
    omega

/-- Numeral form of the body asserts. -/
lemma bodyAsserts_iff (pid seed : Int) :
    bodyAsserts pid seed ↔ (0 ≤ pid ∧ pid ≤ 31 ∧ 0 ≤ seed ∧ seed ≤ 31) := by
  unfold bodyAsserts max_pid max_seed
  push_cast
  omega

end MainPy

/-- Sum form of the 22/17/12 bit layout shared by the repository's encoders,
for in-range fields. -/
lemma pack_22_17_12_eq_add (d a b s : Nat) (ha : a ≤ 31) (hb : b ≤ 31) (hs : s ≤ 4095) :
    (d <<< 22) ||| (a <<< 17) ||| (b <<< 12) ||| s =
      d * 2 ^ 22 + a * 2 ^ 17 + b * 2 ^ 12 + s := by
  have hinner : (b <<< 12) ||| s = b * 2 ^ 12 + s :=
    shiftLeft_lor_eq_add b 12 s (by omega)
  have hmid : (a <<< 17) ||| (b * 2 ^ 12 + s) = a * 2 ^ 17 + (b * 2 ^ 12 + s) :=
    shiftLeft_lor_eq_add a 17 _ (by norm_num; omega)
  have houter : (d <<< 22) ||| (a * 2 ^ 17 + (b * 2 ^ 12 + s)) =
      d * 2 ^ 22 + (a * 2 ^ 17 + (b * 2 ^ 12 + s)) :=
    shiftLeft_lor_eq_add d 22 _ (by norm_num; omega)
  rw [Nat.lor_assoc, Nat.lor_assoc, hinner, hmid, houter]
  omega

namespace PyflakerPy

/-- A successful `finish` returns a value below `snowflake_bits`: the only
path to `.ok` is guarded by the overflow check of src/pyflaker.py line 202. -/
lemma finish_ok_lt (epoch_ms : Int) (process_id thread_id now sequence : Nat)
    (id : Int) (st' : GenState)
    (h : finish epoch_ms process_id thread_id now sequence = .ok id st') :
    id < (snowflake_bits : Int) := by
  unfold finish at h
  by_cases ho : res_expr epoch_ms now process_id thread_id sequence ≥ (snowflake_bits : Int)
  · simp only [ho, if_pos] at h
    cases h
  · simp only [ho, if_neg, if_false] at h
    cases h
    omega

/-- The constructor validation chain succeeds exactly when every checked
upper bound holds; no lower bounds appear. -/
lemma init_check_ok_iff (process_id thread_id step sequence : Int) :
    init_check process_id thread_id step sequence = .ok () ↔
      (process_id < 32 ∧ thread_id < 32 ∧ 1 ≤ step ∧ step < 4096 ∧
        sequence < 4096) := by
  have e1 : ((process_id_bits : Nat) : Int) = 32 := by norm_num [process_id_bits]
  have e2 : ((thread_id_bits : Nat) : Int) = 32 := by norm_num [thread_id_bits]
  have e3 : ((sequence_bits : Nat) : Int) = 4096 := by norm_num [sequence_bits]
  unfold init_check
  rw [e1, e2, e3]
  split_ifs with h1 h2 h3 h4 h5
  · simp
    omega
  · simp
    omega
  · simp
    omega
  · simp
    omega
  · simp
    omega
  · simp
    omega

/-- Every `.ok` outcome of the generate loop carries an ID below
`snowflake_bits`. -/
lemma genLoop_ok_lt :
    ∀ (clock : List Nat) (epoch_ms : Int) (process_id thread_id step : Nat)
      (st : GenState) (id : Int) (st' : GenState),
      genLoop epoch_ms process_id thread_id step st clock = .ok id st' →
      id < (snowflake_bits : Int) := by
  intro clock
  induction clock with
  | nil =>
    intro e p t s st id st' h
    simp [genLoop] at h
  | cons now rest ih =>
    intro e p t s st id st' h
    rw [genLoop] at h
    by_cases h1 : st.last > now
    · rw [if_pos h1] at h
      exact ih e p t s st id st' h
    · rw [if_neg h1] at h
      by_cases h2 : st.last = now
      · rw [if_pos h2] at h
        simp only at h
        by_cases h3 : (st.sequence + s) &&& (sequence_bits - 1) = 0
        · rw [if_pos h3] at h
          exact ih e p t s st id st' h
        · rw [if_neg h3] at h
          exact finish_ok_lt e p t now _ id st' h
      · rw [if_neg h2] at h
        exact finish_ok_lt e p t now 0 id st' h

end PyflakerPy

/-- C1: for every generator created by src/main.py's `generator(epoch, pid, seed)`
(whose body asserts `pid, seed ∈ [0, 31]` before the first yield) and every pair of
sequentially ordered `generate()` calls (the first completes before the second
begins, modelled by threading the committed state of the first call into the
second), the first returned ID is strictly smaller than the second; in
particular the two IDs are never equal.  The clock readings are assumed to be
at or after the configured epoch. -/
theorem c1_sequential_calls_strictly_increase
    (epoch pid seed : Nat) (hpid : pid ≤ MainPy.max_pid) (hseed : seed ≤ MainPy.max_seed)
    (st : MainPy.GenState) (hst : st.sequence ≤ 4095)
    (clock1 clock2 : List Nat)
    (hc1 : ∀ t ∈ clock1, epoch ≤ t) (hc2 : ∀ t ∈ clock2, epoch ≤ t)
    (id1 : Nat) (st1 : MainPy.GenState) (id2 : Nat) (st2 : MainPy.GenState)
    (h1 : MainPy.genLoop epoch pid seed st clock1 = some (id1, st1))
    (h2 : MainPy.genLoop epoch pid seed st1 clock2 = some (id2, st2)) :
    id1 < id2 ∧ id1 ≠ id2 := by
  obtain ⟨⟨t1, _, hlast1, ht1, hid1⟩, hseq1, _⟩ :=
    MainPy.genLoop_spec epoch pid seed clock1 st id1 st1 hst hc1 h1
  obtain ⟨⟨t2, _, hlast2, ht2, hid2⟩, hseq2, hlex2⟩ :=
    MainPy.genLoop_spec epoch pid seed clock2 st1 id2 st2 hseq1 hc2 h2
  have hpid' : pid ≤ 31 := hpid
  have hseed' : seed ≤ 31 := hseed
  have hlt : id1 < id2 := by
    rw [hid1, hid2]
    apply MainPy.encodeMain_strictMono epoch t1 t2 seed pid st1.sequence st2.sequence
      ht1 ht2 hseed' hpid' hseq1 hseq2
    rcases hlex2 with hl | ⟨hl, hs⟩
    · left
      rw [hlast1, hlast2] at hl
      exact_mod_cast hl
    · right
      rw [hlast1, hlast2] at hl
      exact ⟨by exact_mod_cast hl, hs⟩
  exact ⟨hlt, Nat.ne_of_lt hlt⟩

/-- Witness for C1: a concrete two-call run.  With `epoch = 0`, `pid = seed = 0`,
fresh state `(last_timestamp, sequence) = (-1, 0)` and both calls reading the
clock at 5 ms, the first call yields `5 * 2^22` and the second `5 * 2^22 + 1`. -/
theorem c1_sequential_calls_strictly_increase_witness :
    MainPy.genLoop 0 0 0 ⟨-1, 0⟩ [5] = some (20971520, ⟨(5 : Int), 0⟩) ∧
    MainPy.genLoop 0 0 0 ⟨(5 : Int), 0⟩ [5] = some (20971521, ⟨(5 : Int), 1⟩) ∧
    (20971520 < 20971521 ∧ (20971520 : Nat) ≠ 20971521) := by
  refine ⟨by decide, by decide, ?_⟩
  exact c1_sequential_calls_strictly_increase 0 0 0 (by decide) (by decide)
    ⟨-1, 0⟩ (by decide) [5] [5] (by decide) (by decide)
    20971520 ⟨(5 : Int), 0⟩ 20971521 ⟨(5 : Int), 1⟩ (by decide) (by decide)

/-- C2 counterexample: src/pyflaker.py's `generate` packs `process_id` at
bits 17-21 and `thread_id` at bits 12-16 — the opposite of the claimed
layout.  With epoch 0, `process_id = 1`, `thread_id = 0` (so the claimed
worker/thread field is 0 and the claimed process field is 1), fresh state
`(last, sequence) = (5, 0)` and a clock reading of 6 ms, the code returns
`6·2^22 + 2^17 = 25296896`, while the claimed formula gives
`6·2^22 + 2^12 = 25169920`. -/
theorem c2_layout_counterexample :
    PyflakerPy.generate 0 1 0 1 ⟨false, 5, 0⟩ [6] =
      .ok 25296896 ⟨false, 6, 0⟩ ∧
    specLayout 6 0 1 0 = 25169920 ∧
    (25296896 : Int) ≠ (25169920 : Int) := by
  refine ⟨by decide, by decide, by decide⟩

/-- C2 amended: all encoders put the sequence in bits 0-11 and shift the
timestamp delta left by 22, but the two middle fields differ per variant:
src/src/main.py places `worker_id` at bits 17-21 and `process_id` at
bits 12-16 (the claimed layout), while src/pyflaker.py places `process_id`
at bits 17-21 and `thread_id` at bits 12-16 (the mirror image).  For every
in-range field tuple both encoders equal the corresponding shifted sum. -/
theorem c2_amended_layouts (delta worker_id process_id thread_id sequence : Nat)
    (hw : worker_id ≤ 31) (hp : process_id ≤ 31) (ht : thread_id ≤ 31)
    (hs : sequence ≤ 4095) :
    SrcSrc.encode delta worker_id process_id sequence =
      delta * 2 ^ 22 + worker_id * 2 ^ 17 + process_id * 2 ^ 12 + sequence ∧
    PyflakerPy.encode delta process_id thread_id sequence =
      delta * 2 ^ 22 + process_id * 2 ^ 17 + thread_id * 2 ^ 12 + sequence := by
  unfold SrcSrc.encode PyflakerPy.encode
  exact ⟨pack_22_17_12_eq_add delta worker_id process_id sequence hw hp hs,
    pack_22_17_12_eq_add delta process_id thread_id sequence hp ht hs⟩

/-- Witness for C2's amended theorem at `delta = 1`, `worker_id = 2`,
`process_id = 3`, `thread_id = 4`, `sequence = 5`. -/
theorem c2_amended_layouts_witness :
    SrcSrc.encode 1 2 3 5 = 1 * 2 ^ 22 + 2 * 2 ^ 17 + 3 * 2 ^ 12 + 5 ∧
    PyflakerPy.encode 1 3 4 5 = 1 * 2 ^ 22 + 3 * 2 ^ 17 + 4 * 2 ^ 12 + 5 :=
  c2_amended_layouts 1 2 3 4 5 (by decide) (by decide) (by decide) (by decide)

/-- C3: evaluation of src/pyflaker/generator.py at the two inputs where it
contradicts the claim (and its own comments).  First: with
`sequence = 4095` and the clock equal to `last_time` (1000 ms, epoch 0), the
claim requires the increment to wrap to 0 and the call to block; instead the
mask `(1 << 2**10) - 1 = 2^1024 - 1` lets the sequence reach 4096 (escaping
its 12-bit field) and the call returns.  Second: with `sequence = 0` and the
clock equal to `last_time`, the claim requires the increment to 1 and an
immediate return; instead the code tests the pre-increment sequence against
0 and sleeps forever while the millisecond lasts. -/
theorem c3_generator_py_sequence_divergence :
    PyflakerPkg.generate 0 0 ⟨1000, 4095⟩ [1000] =
      some (4198400, ⟨1000, 4096⟩) ∧
    PyflakerPkg.generate 0 0 ⟨1000, 0⟩ [1000, 1000, 1000] = none := by
  refine ⟨by decide, by decide⟩

/-- C4 counterexample: no variant fails immediately at construction for both
out-of-range values.  (a) src/main.py: `generator(epoch, 32, 0)` — and hence
`Snowflake(epoch, 32, 0)` — constructs successfully, because the asserts live
in the generator body; the AssertionError fires only at the first
`generate()`/`next()`, i.e. the failure is deferred, which the claim rules
out.  (b) src/pyflaker.py's constructor checks only the upper bounds, so
construction with `process_id = -1` succeeds.  (c) src/src/main.py stores
`process_id = 32`, `worker_id = -1` with no validation at all. -/
theorem c4_out_of_range_construction_succeeds_counterexample :
    MainPy.generatorCall 0 32 0 = ⟨0, 32, 0⟩ ∧
    MainPy.firstAdvance ⟨0, 32, 0⟩ [5] = .error "AssertionError" ∧
    PyflakerPy.init_check (-1) 0 1 0 = .ok () ∧
    SrcSrc.init 32 (-1) = ⟨32, -1, -1, 0⟩ := by
  have hno : ¬ MainPy.bodyAsserts (32 : Int) 0 := by decide
  refine ⟨rfl, ?_, rfl, rfl⟩
  unfold MainPy.firstAdvance
  rw [if_neg hno]

/-- C4 amended: no variant fails immediately at construction on both bounds.
src/main.py's asserts do check both bounds (32 and -1 both trip them), but
they sit in the generator body, so calling `generator(...)` — and
constructing the `Snowflake` client — always succeeds and the AssertionError
is deferred to the first `generate()` call, which fails exactly when a bound
is violated and otherwise runs the generate loop; src/pyflaker.py checks at
construction but only the upper bounds (32 fails immediately, -1 is
accepted); src/src/main.py stores its arguments with no range validation. -/
theorem c4_amended_construction_bounds :
    (∀ (epoch : Nat) (pid seed : Int),
      MainPy.generatorCall epoch pid seed = ⟨epoch, pid, seed⟩) ∧
    (∀ (epoch : Nat) (pid seed : Int) (clock : List Nat),
      (∃ e, MainPy.firstAdvance ⟨epoch, pid, seed⟩ clock = .error e) ↔
        ¬ (0 ≤ pid ∧ pid ≤ 31 ∧ 0 ≤ seed ∧ seed ≤ 31)) ∧
    (∀ process_id thread_id step sequence : Int,
      PyflakerPy.init_check process_id thread_id step sequence = .ok () ↔
        (process_id < 32 ∧ thread_id < 32 ∧ 1 ≤ step ∧ step < 4096 ∧
          sequence < 4096)) ∧
    (∀ process_id worker_id : Int,
      SrcSrc.init process_id worker_id = ⟨process_id, worker_id, -1, 0⟩) := by
  refine ⟨fun _ _ _ => rfl, ?_, ?_, fun _ _ => rfl⟩
  · intro epoch pid seed clock
    unfold MainPy.firstAdvance
    by_cases h : MainPy.bodyAsserts pid seed
    · rw [if_pos h]
      rw [MainPy.bodyAsserts_iff] at h
      constructor
      · rintro ⟨e, he⟩
        simp at he
      · intro hn
        exact absurd h hn
    · rw [if_neg h]
      rw [MainPy.bodyAsserts_iff] at h
      constructor
      · intro _
        exact h
      · intro _
        exact ⟨"AssertionError", rfl⟩
  · intro process_id thread_id step sequence
    exact PyflakerPy.init_check_ok_iff process_id thread_id step sequence

/-- C5: the repository's only working decoder, `snowflake_to_datetime` in
src/src/__init__.py, computes `(id >> 22) + epoch_ms` — verified here on the
spec's concrete scenario (delta 1000 ms, worker 7, process 3, sequence 0,
epoch 1555301520000) — but the other decode entry point,
`Snowflake.to_timestamp` in src/main.py, is declared without a `self`
parameter, so every bound call fails (TypeError on `instance >> 22`) no
matter what ID the caller passes. -/
theorem c5_decode_formula_and_broken_to_timestamp :
    SrcPkg.snowflake_to_datetime_ms (SrcSrc.encode 1000 7 3 0) 1555301520000 =
      1555301521000 ∧
    (∀ x : Int, MainPy.to_timestamp_boundCall x =
      .error "TypeError: unsupported operand for Snowflake >> int") := by
  exact ⟨by decide, fun _ => rfl⟩

/-- C6: evaluation of the round-trip at a failing input.
src/pyflaker/generator.py passes `(last_time - epoch).total_seconds()` — a
value in seconds — as the `milliseconds` argument of `timedelta`, so the
packed time field of the produced Snowflake counts seconds.  Generating at
wall-clock time 1555301522000 ms with epoch 1555301520000 ms (2000 ms
elapsed) packs time field 2, and decoding with the same epoch yields
1555301520002 ms: 1998 ms away from the generation time, far beyond the
claimed 1 ms. -/
theorem c6_roundtrip_off_by_factor_1000 :
    PyflakerPkg.generate 1555301520000 0 ⟨1555301520000, 0⟩ [1555301522000] =
      some (8388608, ⟨1555301522000, 0⟩) ∧
    SrcPkg.snowflake_to_datetime_ms 8388608 1555301520000 = 1555301520002 ∧
    1555301522000 - 1555301520002 = 1998 := by
  refine ⟨by decide, by decide, by decide⟩

/-- C7: on src/pyflaker.py's SnowflakeGenerator, `close()` is idempotent and
leaves the generator reporting closed, and every subsequent `generate()`
call — for every epoch, field values, state and clock, including an empty
clock — returns the closed error immediately without consuming a single
clock reading (it never blocks). -/
theorem c7_close_idempotent_generate_fails_closed :
    ∀ (epoch_ms : Int) (process_id thread_id step : Nat)
      (st : PyflakerPy.GenState) (clock : List Nat),
      PyflakerPy.close (PyflakerPy.close st) = PyflakerPy.close st ∧
      PyflakerPy.isClosed (PyflakerPy.close st) = true ∧
      PyflakerPy.generate epoch_ms process_id thread_id step
        (PyflakerPy.close st) clock = .closedErr := by
  intro e p t s st clock
  exact ⟨rfl, rfl, rfl⟩

/-- C8 counterexample: with the epoch one millisecond in the future
(epoch 1 ms, clock reading 0 ms) src/pyflaker.py's `generate` returns the
negative ID `-4194303` silently: there is no InvalidEpoch check, and the
only guard (`res >= 2^64`) does not fire on negative values, contradicting
both `0 ≤ id` and the claimed failure. -/
theorem c8_negative_id_returned_counterexample :
    PyflakerPy.generate 1 0 0 1 ⟨false, 0, 0⟩ [0] =
      .ok (-4194303) ⟨false, 0, 1⟩ ∧
    (-4194303 : Int) < 0 := by
  refine ⟨by decide, by decide⟩

/-- C8 amended: src/pyflaker.py enforces only the upper bound — every ID its
`generate` returns satisfies `id < 2^64` (a packed result at or above `2^64`
raises instead of being returned) — but there is no check for a negative
delta: with an epoch in the future the call silently returns a negative ID
rather than failing with InvalidEpoch (and src/src/main.py checks neither
bound). -/
theorem c8_amended_ids_below_2_pow_64
    (epoch_ms : Int) (process_id thread_id step : Nat)
    (st : PyflakerPy.GenState) (clock : List Nat)
    (id : Int) (st' : PyflakerPy.GenState)
    (h : PyflakerPy.generate epoch_ms process_id thread_id step st clock =
      .ok id st') :
    id < (PyflakerPy.snowflake_bits : Int) := by
  unfold PyflakerPy.generate at h
  by_cases hc : st.closed
  · rw [if_pos hc] at h
    cases h
  · rw [if_neg hc] at h
    exact PyflakerPy.genLoop_ok_lt clock epoch_ms process_id thread_id step st id st' h

/-- Witness for C8's amended theorem: a concrete call returning the ID 1,
which is below `2^64`. -/
theorem c8_amended_ids_below_2_pow_64_witness :
    PyflakerPy.generate 0 0 0 1 ⟨false, 0, 0⟩ [0] = .ok 1 ⟨false, 0, 1⟩ ∧
    (1 : Int) < (PyflakerPy.snowflake_bits : Int) :=
  ⟨by decide, c8_amended_ids_below_2_pow_64 0 0 0 1 ⟨false, 0, 0⟩ [0] 1
    ⟨false, 0, 1⟩ (by decide)⟩

/-- C9: every `generate()` call of src/src/main.py's SnowflakeGenerator —
for every epoch, worker and process id, state and clock — either spins out
of readings (empty clock) or raises the TypeError from `timestamp()` calling
`now()` without the required `tz` argument; the loop body after the clock
read is unreachable and no snowflake is ever returned. -/
theorem c9_generate_always_raises_type_error :
    ∀ (epoch worker_id process_id : Nat) (st : SrcSrc.GenState)
      (clock : List Int),
      SrcSrc.genLoop epoch worker_id process_id st clock = none ∨
      SrcSrc.genLoop epoch worker_id process_id st clock =
        some (.error "TypeError: now() missing 1 required positional argument: tz") := by
  intro epoch worker_id process_id st clock
  cases clock with
  | nil => exact Or.inl rfl
  | cons reading rest => exact Or.inr rfl

/-- C10: on src/main.py's `Snowflake` client, `renew(pid, seed)` raises
AttributeError for every client state: when the `generator` attribute is
present, `destroy()` deletes it and `create()`'s unguarded
`getattr(self, 'generator')` then raises; when it is already absent,
`destroy()`'s own `getattr` raises first.  Likewise `create()` on a
destroyed client raises, so a destroyed client can never receive a new
generator. -/
theorem c10_renew_always_raises_attribute_error :
    ∀ (α : Type) (fresh : α) (st : Option α),
      MainPy.renew fresh st =
        .error "AttributeError: Snowflake object has no attribute generator" ∧
      MainPy.create fresh none =
        .error "AttributeError: Snowflake object has no attribute generator" := by
  intro α fresh st
  cases st with
  | none => exact ⟨rfl, rfl⟩
  | some g => exact ⟨rfl, rfl⟩

end PyflakerRepo
